import Mathlib

/-!
Shallow embedding of the chatbot-project repository:
  * `src/services/llm_service.py` — `LLMService.send_message`, a bounded retry
    loop around a remote completion API, classifying failures per attempt;
  * `src/utils/helpers.py` — `sanitize_input`, a pure string sanitizer.

The remote API is modelled as an oracle `env : Nat → APIOutcome` giving the
outcome of each attempt (the spec's failure-mode taxonomy for the external
collaborator: success, generic API error, rate-limit signal, authentication
failure, arbitrary other exception), and `dur : Nat → Nat` giving the wall
time each network call consumes.  `send_message` additionally returns a
`Trace` recording the number of network calls issued and the list of backoff
sleeps performed, so that call-count and backoff claims are statable.
Elapsed time (`time.time() - start_time`) is the sum of call durations and
sleeps since the loop started.  The Python function falls off the end of the
`for` loop (implicitly returning `None`) only when `MAX_RETRIES == 0`; the
embedding returns `Option` with `none` for exactly that fall-through.
-/

/-- Configuration values read from `config.py` (the module itself is not part
of the source tree; its fields are those the service reads: `OPENAI_API_KEY`,
`MAX_MESSAGE_LENGTH`, `MAX_RETRIES`, `API_TIMEOUT`). -/
structure Config where
  apiKey : String
  maxMessageLength : Nat
  maxRetries : Nat
  apiTimeout : Nat
deriving DecidableEq

/-- A chat message object inside an API response choice (`choice.message`),
with its text content. -/
structure ChatMessage where
  content : String
deriving DecidableEq

/-- One element of `response.choices`; `message` is `Option` because the code
tests `response.choices[0].message` for truthiness. -/
structure Choice where
  message : Option ChatMessage
deriving DecidableEq

/-- Usage metadata of an API response (`response.usage.total_tokens`). -/
structure Usage where
  total_tokens : Nat
deriving DecidableEq

/-- A successful HTTP-level response from the completion endpoint: a list of
choices and optional usage metadata (spec §6: "a response exposing a list of
choices (each with message content) and optional usage/token-count
metadata"). -/
structure APIResponse where
  choices : List Choice
  usage : Option Usage
deriving DecidableEq

/-- Outcome of one network call, per the spec's taxonomy of what the external
collaborator surfaces: a response, or one of the exception kinds the
`except` clauses classify (`openai.APIError`, `openai.RateLimitError`,
`openai.AuthenticationError`, bare `Exception`).  The string payloads are
`str(e)` where the code interpolates it. -/
inductive APIOutcome where
  | success (resp : APIResponse)
  | apiError (e : String)
  | rateLimit
  | authError
  | otherError (e : String)
deriving DecidableEq

/-- The dictionary `send_message` returns.  Failure dictionaries in the source
carry no `model_used`/`tokens_used` keys; those fields are `none` there. -/
structure DispatchResult where
  success : Bool
  response : Option String
  error : Option String
  response_time : Nat
  model_used : Option String
  tokens_used : Option Nat
deriving DecidableEq

/-- Observable side effects of one `send_message` call: how many network calls
were issued and which backoff sleeps (`time.sleep(k)`) were performed, in
order. -/
structure Trace where
  calls : Nat
  sleeps : List Nat
deriving DecidableEq

/-- Characters Python's `str.strip()` removes (ASCII whitespace). -/
def isPySpace (c : Char) : Bool :=
  c = ' ' || c = '\t' || c = '\n' || c = Char.ofNat 11 || c = Char.ofNat 12 || c = '\r'

/-- Python `s.strip()`: drop leading and trailing whitespace. -/
def pyStrip (s : String) : String :=
  String.mk (((s.data.dropWhile isPySpace).reverse.dropWhile isPySpace).reverse)

/-- The over-length error text
`f"Message too long. Maximum {Config.MAX_MESSAGE_LENGTH} characters allowed."`. -/
def tooLongError (cfg : Config) : String :=
  "Message too long. Maximum " ++ toString cfg.maxMessageLength ++ " characters allowed."

/-- The truthiness test `response.choices and response.choices[0].message`. -/
def hasContent (resp : APIResponse) : Bool :=
  match resp.choices with
  | [] => false
  | c :: _ => c.message.isSome

/-- The retry loop `for attempt in range(Config.MAX_RETRIES)` of
`send_message`, one constructor case per `except` clause.  `remaining` counts
the iterations the `range` has left (entry: `remaining = cfg.maxRetries`,
`attempt = 0`); the loop body's last-attempt test is the literal
`attempt == Config.MAX_RETRIES - 1`.  `elapsed` is time accrued since
`start_time`; `calls` and `sleeps` accumulate the trace. -/
def send_loop (cfg : Config) (model : String) (env : Nat → APIOutcome)
    (dur : Nat → Nat) :
    Nat → Nat → Nat → Nat → List Nat → Option (DispatchResult × Trace)
  | 0, _, _, _, _ => none
  | remaining + 1, attempt, elapsed, calls, sleeps =>
    let elapsed1 := elapsed + dur attempt
    let calls1 := calls + 1
    match env attempt with
    | APIOutcome.success resp =>
      match resp.choices with
      | c :: _ =>
        match c.message with
        | some m =>
          some ({ success := true, response := some m.content, error := none,
                  response_time := elapsed1, model_used := some model,
                  tokens_used := resp.usage.map (fun u => u.total_tokens) },
                { calls := calls1, sleeps := sleeps })
        | none =>
          some ({ success := false, response := none,
                  error := some "Empty response from API",
                  response_time := elapsed1, model_used := none,
                  tokens_used := none },
                { calls := calls1, sleeps := sleeps })
      | [] =>
        some ({ success := false, response := none,
                error := some "Empty response from API",
                response_time := elapsed1, model_used := none,
                tokens_used := none },
              { calls := calls1, sleeps := sleeps })
    | APIOutcome.apiError e =>
      if attempt = cfg.maxRetries - 1 then
        some ({ success := false, response := none,
                error := some ("API Error: " ++ e),
                response_time := elapsed1, model_used := none,
                tokens_used := none },
              { calls := calls1, sleeps := sleeps })
      else
        send_loop cfg model env dur remaining (attempt + 1) (elapsed1 + 1)
          calls1 (sleeps ++ [1])
    | APIOutcome.rateLimit =>
      if attempt = cfg.maxRetries - 1 then
        some ({ success := false, response := none,
                error := some "Rate limit exceeded. Please try again later.",
                response_time := elapsed1, model_used := none,
                tokens_used := none },
              { calls := calls1, sleeps := sleeps })
      else
        send_loop cfg model env dur remaining (attempt + 1) (elapsed1 + 2)
          calls1 (sleeps ++ [2])
    | APIOutcome.authError =>
      some ({ success := false, response := none,
              error := some "Invalid API key. Please check your configuration.",
              response_time := elapsed1, model_used := none,
              tokens_used := none },
            { calls := calls1, sleeps := sleeps })
    | APIOutcome.otherError e =>
      if attempt = cfg.maxRetries - 1 then
        some ({ success := false, response := none,
                error := some ("Unexpected error: " ++ e),
                response_time := elapsed1, model_used := none,
                tokens_used := none },
              { calls := calls1, sleeps := sleeps })
      else
        send_loop cfg model env dur remaining (attempt + 1) (elapsed1 + 1)
          calls1 (sleeps ++ [1])

/-- `LLMService.send_message`: input validation, then the retry loop. -/
def send_message (cfg : Config) (message : String) (model : String)
    (env : Nat → APIOutcome) (dur : Nat → Nat) :
    Option (DispatchResult × Trace) :=
  if message = "" || pyStrip message = "" then
    some ({ success := false, response := none,
            error := some "Empty message provided", response_time := 0,
            model_used := none, tokens_used := none },
          { calls := 0, sleeps := [] })
  else if message.length > cfg.maxMessageLength then
    some ({ success := false, response := none,
            error := some (tooLongError cfg), response_time := 0,
            model_used := none, tokens_used := none },
          { calls := 0, sleeps := [] })
  else
    send_loop cfg model env dur cfg.maxRetries 0 0 0 []

/-- Modelled from the spec: `config.py` (with `Config.validate_config` and
`Config.get_missing_config`) is not under `src/`; per the spec the
configuration invariant is "credential must be non-empty; all numeric
settings must be positive". -/
def configValid (cfg : Config) : Bool :=
  cfg.apiKey != "" && decide (0 < cfg.maxMessageLength) &&
    decide (0 < cfg.maxRetries) && decide (0 < cfg.apiTimeout)

/-- Modelled from the spec: `LLMService.__init__` raises `ValueError` when
`Config.validate_config()` fails and otherwise constructs the service;
`config.py` is not under `src/`, so validation is `configValid`. -/
def llmServiceInit (cfg : Config) : Except String Config :=
  if configValid cfg then Except.ok cfg
  else Except.error "Missing required configuration"

/-- The outcome kinds whose `except` branch can loop to another attempt
(generic API error, rate-limit, unclassified exception). -/
def retryable : APIOutcome → Bool
  | APIOutcome.apiError _ => true
  | APIOutcome.rateLimit => true
  | APIOutcome.otherError _ => true
  | _ => false

/-- The apostrophe character (kept out of literals). -/
def squote : Char := Char.ofNat 39

/-- Python `html.escape` (with quotes), per character: `&` `<` `>` `"` `'`
become entities, everything else is unchanged.  Sequential `str.replace`
composition in CPython equals this character-wise map. -/
def escapeChar (c : Char) : String :=
  if c = '&' then "&amp;"
  else if c = '<' then "&lt;"
  else if c = '>' then "&gt;"
  else if c = '"' then "&quot;"
  else if c = squote then "&#x27;"
  else String.singleton c

/-- Character-wise escaping of a character list: each character is replaced
by its entity (or kept), and the results are concatenated. -/
def escapeList : List Char → List Char
  | [] => []
  | c :: cs => (escapeChar c).data ++ escapeList cs

/-- `html.escape(text)`. -/
def html_escape (s : String) : String :=
  String.mk (escapeList s.data)

/-- The character class of `re.sub(r'[<>"\x27]', '', text)`. -/
def dangerous (c : Char) : Bool :=
  c = '<' || c = '>' || c = '"' || c = squote

/-- `re.sub(r'[<>"\x27]', '', text)`: delete every dangerous character. -/
def remove_dangerous (s : String) : String :=
  String.mk (s.data.filter (fun c => !dangerous c))

/-- The length cap: `if len(text) > 4000: text = text[:4000] + "..."`. -/
def truncate4000 (s : String) : String :=
  if s.length > 4000 then String.mk (s.data.take 4000) ++ "..." else s

/-- `sanitize_input` from `src/utils/helpers.py`: empty input maps to empty;
otherwise HTML-escape, strip dangerous characters, truncate to 4000
characters appending "..." when truncation happens, and strip surrounding
whitespace. -/
def sanitize_input (text : String) : String :=
  if text = "" then ""
  else pyStrip (truncate4000 (remove_dangerous (html_escape text)))

/-- The characters `html.escape` alters (a plain-text input contains none). -/
def escapable (c : Char) : Bool :=
  c = '&' || c = '<' || c = '>' || c = '"' || c = squote

/-- The record invariant claimed of every `DispatchResult` (spec §3). -/
def resultInvariant (r : DispatchResult) : Prop :=
  ((r.response.isSome = true ∧ r.error = none) ↔ r.success = true) ∧
  ((r.error.isSome = true ∧ r.response = none) ↔ r.success = false) ∧
  (r.model_used.isSome = true ↔ r.success = true) ∧
  0 ≤ r.response_time

lemma pyStrip_empty : pyStrip "" = "" := rfl

/-- When the input validation passes, `send_message` is the retry loop started
at attempt 0 with `MAX_RETRIES` iterations left and nothing accrued. -/
lemma send_message_valid (cfg : Config) (message model : String)
    (env : Nat → APIOutcome) (dur : Nat → Nat)
    (h2 : pyStrip message ≠ "") (h3 : message.length ≤ cfg.maxMessageLength) :
    send_message cfg message model env dur =
      send_loop cfg model env dur cfg.maxRetries 0 0 0 [] := by
  have hm : message ≠ "" := by
    intro h
    exact h2 (by rw [h]; rfl)
  unfold send_message
  rw [if_neg, if_neg]
  · exact not_lt.mpr h3
  · simp [hm, h2]

/-- C2: with at least one attempt allowed and a valid message, an
authentication failure on the first attempt makes `send_message` return at
once: one network call, no sleeps, the fixed invalid-credential error. -/
theorem claim2_auth_error_immediate (cfg : Config) (message model : String)
    (env : Nat → APIOutcome) (dur : Nat → Nat)
    (hr : 1 ≤ cfg.maxRetries) (h2 : pyStrip message ≠ "")
    (h3 : message.length ≤ cfg.maxMessageLength)
    (henv : env 0 = APIOutcome.authError) :
    ∃ rt, send_message cfg message model env dur =
      some ({ success := false, response := none,
              error := some "Invalid API key. Please check your configuration.",
              response_time := rt, model_used := none, tokens_used := none },
            { calls := 1, sleeps := [] }) := by
  rw [send_message_valid cfg message model env dur h2 h3]
  obtain ⟨m, hm⟩ : ∃ m, cfg.maxRetries = m + 1 := ⟨cfg.maxRetries - 1, by omega⟩
  rw [hm]
  exact ⟨0 + dur 0, by simp [send_loop, henv]⟩

theorem claim2_witness :
    ∃ rt, send_message ⟨"k", 100, 3, 30⟩ "hi" "gpt-3.5-turbo"
        (fun _ => APIOutcome.authError) (fun _ => 5) =
      some ({ success := false, response := none,
              error := some "Invalid API key. Please check your configuration.",
              response_time := rt, model_used := none, tokens_used := none },
            { calls := 1, sleeps := [] }) :=
  claim2_auth_error_immediate ⟨"k", 100, 3, 30⟩ "hi" "gpt-3.5-turbo"
    (fun _ => APIOutcome.authError) (fun _ => 5)
    (by decide) (by decide) (by decide) rfl

/-- C4: with a valid message, when the first attempt yields a response whose
first choice carries a message, `send_message` succeeds immediately: one
network call, the content as `response`, the model used, and the usage token
count when reported. -/
theorem claim4_first_attempt_success (cfg : Config) (message model : String)
    (env : Nat → APIOutcome) (dur : Nat → Nat) (resp : APIResponse)
    (c : Choice) (rest : List Choice) (m : ChatMessage)
    (hr : 1 ≤ cfg.maxRetries) (h2 : pyStrip message ≠ "")
    (h3 : message.length ≤ cfg.maxMessageLength)
    (henv : env 0 = APIOutcome.success resp)
    (hch : resp.choices = c :: rest) (hmsg : c.message = some m)
    (hnonempty : m.content ≠ "") :
    ∃ rt, send_message cfg message model env dur =
      some ({ success := true, response := some m.content, error := none,
              response_time := rt, model_used := some model,
              tokens_used := resp.usage.map (fun u => u.total_tokens) },
            { calls := 1, sleeps := [] }) := by
  rw [send_message_valid cfg message model env dur h2 h3]
  obtain ⟨k, hk⟩ : ∃ k, cfg.maxRetries = k + 1 := ⟨cfg.maxRetries - 1, by omega⟩
  rw [hk]
  exact ⟨0 + dur 0, by simp [send_loop, henv, hch, hmsg]⟩

theorem claim4_witness :
    ∃ rt, send_message ⟨"k", 100, 3, 30⟩ "hi" "gpt-4"
        (fun _ => APIOutcome.success ⟨[⟨some ⟨"pong"⟩⟩], some ⟨42⟩⟩) (fun _ => 5) =
      some ({ success := true, response := some "pong", error := none,
              response_time := rt, model_used := some "gpt-4",
              tokens_used := (some (Usage.mk 42)).map (fun u => u.total_tokens) },
            { calls := 1, sleeps := [] }) :=
  claim4_first_attempt_success ⟨"k", 100, 3, 30⟩ "hi" "gpt-4"
    (fun _ => APIOutcome.success ⟨[⟨some ⟨"pong"⟩⟩], some ⟨42⟩⟩) (fun _ => 5)
    ⟨[⟨some ⟨"pong"⟩⟩], some ⟨42⟩⟩ ⟨some ⟨"pong"⟩⟩ [] ⟨"pong"⟩
    (by decide) (by decide) (by decide) rfl rfl rfl (by decide)

/-- C10: a message that is non-empty but whitespace-only and also over-length
takes the emptiness branch, not the over-length branch: the emptiness check
runs before the length check. -/
theorem claim10_empty_check_precedes_length (cfg : Config)
    (message model : String) (env : Nat → APIOutcome) (dur : Nat → Nat)
    (hne : message ≠ "") (hws : pyStrip message = "")
    (hlong : cfg.maxMessageLength < message.length) :
    send_message cfg message model env dur =
      some ({ success := false, response := none,
              error := some "Empty message provided", response_time := 0,
              model_used := none, tokens_used := none },
            { calls := 0, sleeps := [] }) := by
  unfold send_message
  rw [if_pos]
  simp [hws]

theorem claim10_witness :
    send_message ⟨"k", 2, 3, 30⟩ "   " "gpt-3.5-turbo"
        (fun _ => APIOutcome.rateLimit) (fun _ => 0) =
      some ({ success := false, response := none,
              error := some "Empty message provided", response_time := 0,
              model_used := none, tokens_used := none },
            { calls := 0, sleeps := [] }) :=
  claim10_empty_check_precedes_length ⟨"k", 2, 3, 30⟩ "   " "gpt-3.5-turbo"
    (fun _ => APIOutcome.rateLimit) (fun _ => 0)
    (by decide) (by decide) (by decide)

/-- C3 counterexample: a whitespace-only message of length 3 against
`maxMessageLength = 2` exceeds the limit, yet the error returned is
"Empty message provided", which is not the limit-citing error — so "for every
message whose length exceeds maxMessageLength, dispatch returns an error
citing the configured limit" is false as stated. -/
theorem claim3_counterexample :
    (Config.mk "k" 2 3 30).maxMessageLength < ("   " : String).length ∧
    (send_message ⟨"k", 2, 3, 30⟩ "   " "gpt-3.5-turbo"
        (fun _ => APIOutcome.authError) (fun _ => 0)).map (fun p => p.1.error) =
      some (some "Empty message provided") ∧
    "Empty message provided" ≠ tooLongError ⟨"k", 2, 3, 30⟩ := by
  decide

/-- C3 (amended): an empty or whitespace-only message yields the
"Empty message provided" failure with zero elapsed time and zero network
calls; a message that is NOT whitespace-only and exceeds `maxMessageLength`
yields the limit-citing failure with zero elapsed time and zero network
calls. -/
theorem claim3_input_validation (cfg : Config) (message model : String)
    (env : Nat → APIOutcome) (dur : Nat → Nat) :
    (pyStrip message = "" →
      send_message cfg message model env dur =
        some ({ success := false, response := none,
                error := some "Empty message provided", response_time := 0,
                model_used := none, tokens_used := none },
              { calls := 0, sleeps := [] })) ∧
    (pyStrip message ≠ "" → cfg.maxMessageLength < message.length →
      send_message cfg message model env dur =
        some ({ success := false, response := none,
                error := some (tooLongError cfg), response_time := 0,
                model_used := none, tokens_used := none },
              { calls := 0, sleeps := [] })) := by
  constructor
  · intro hws
    unfold send_message
    rw [if_pos]
    simp [hws]
  · intro hws hlong
    have hm : message ≠ "" := by
      intro h
      exact hws (by rw [h]; rfl)
    unfold send_message
    rw [if_neg, if_pos hlong]
    simp [hm, hws]

theorem claim3_witness :
    send_message ⟨"k", 2, 3, 30⟩ " " "m" (fun _ => APIOutcome.rateLimit) (fun _ => 0) =
      some ({ success := false, response := none,
              error := some "Empty message provided", response_time := 0,
              model_used := none, tokens_used := none },
            { calls := 0, sleeps := [] }) ∧
    send_message ⟨"k", 2, 3, 30⟩ "abc" "m" (fun _ => APIOutcome.rateLimit) (fun _ => 0) =
      some ({ success := false, response := none,
              error := some (tooLongError ⟨"k", 2, 3, 30⟩), response_time := 0,
              model_used := none, tokens_used := none },
            { calls := 0, sleeps := [] }) :=
  ⟨(claim3_input_validation ⟨"k", 2, 3, 30⟩ " " "m"
      (fun _ => APIOutcome.rateLimit) (fun _ => 0)).1 (by decide),
   (claim3_input_validation ⟨"k", 2, 3, 30⟩ "abc" "m"
      (fun _ => APIOutcome.rateLimit) (fun _ => 0)).2 (by decide) (by decide)⟩

lemma send_loop_rateLimit_step (cfg : Config) (model : String)
    (env : Nat → APIOutcome) (dur : Nat → Nat) (n a e c : Nat) (s : List Nat)
    (h : env a = APIOutcome.rateLimit) :
    send_loop cfg model env dur (n + 1) a e c s =
      if a = cfg.maxRetries - 1 then
        some ({ success := false, response := none,
                error := some "Rate limit exceeded. Please try again later.",
                response_time := e + dur a, model_used := none,
                tokens_used := none },
              { calls := c + 1, sleeps := s })
      else send_loop cfg model env dur n (a + 1) (e + dur a + 2) (c + 1) (s ++ [2]) := by
  simp only [send_loop, h]

lemma send_loop_apiError_step (cfg : Config) (model : String)
    (env : Nat → APIOutcome) (dur : Nat → Nat) (n a e c : Nat) (s : List Nat)
    (msg : String) (h : env a = APIOutcome.apiError msg) :
    send_loop cfg model env dur (n + 1) a e c s =
      if a = cfg.maxRetries - 1 then
        some ({ success := false, response := none,
                error := some ("API Error: " ++ msg),
                response_time := e + dur a, model_used := none,
                tokens_used := none },
              { calls := c + 1, sleeps := s })
      else send_loop cfg model env dur n (a + 1) (e + dur a + 1) (c + 1) (s ++ [1]) := by
  simp only [send_loop, h]

lemma send_loop_otherError_step (cfg : Config) (model : String)
    (env : Nat → APIOutcome) (dur : Nat → Nat) (n a e c : Nat) (s : List Nat)
    (msg : String) (h : env a = APIOutcome.otherError msg) :
    send_loop cfg model env dur (n + 1) a e c s =
      if a = cfg.maxRetries - 1 then
        some ({ success := false, response := none,
                error := some ("Unexpected error: " ++ msg),
                response_time := e + dur a, model_used := none,
                tokens_used := none },
              { calls := c + 1, sleeps := s })
      else send_loop cfg model env dur n (a + 1) (e + dur a + 1) (c + 1) (s ++ [1]) := by
  simp only [send_loop, h]

/-- A rate-limited environment: with `m + 1` iterations left and the invariant
`attempt + remaining = MAX_RETRIES`, the loop consumes all remaining attempts,
sleeping 2 seconds after each non-final one. -/
lemma send_loop_rate_limit (cfg : Config) (model : String)
    (env : Nat → APIOutcome) (dur : Nat → Nat)
    (henv : ∀ i, env i = APIOutcome.rateLimit) :
    ∀ (m a e c : Nat) (s : List Nat), a + (m + 1) = cfg.maxRetries →
    ∃ rt, send_loop cfg model env dur (m + 1) a e c s =
      some ({ success := false, response := none,
              error := some "Rate limit exceeded. Please try again later.",
              response_time := rt, model_used := none, tokens_used := none },
            { calls := c + (m + 1), sleeps := s ++ List.replicate m 2 }) := by
  intro m
  induction m with
  | zero =>
    intro a e c s hinv
    have ha : a = cfg.maxRetries - 1 := by omega
    refine ⟨e + dur a, ?_⟩
    rw [send_loop_rateLimit_step cfg model env dur 0 a e c s (henv a), if_pos ha]
    simp
  | succ k ih =>
    intro a e c s hinv
    have ha : ¬(a = cfg.maxRetries - 1) := by omega
    obtain ⟨rt, hrt⟩ := ih (a + 1) (e + dur a + 2) (c + 1) (s ++ [2]) (by omega)
    refine ⟨rt, ?_⟩
    rw [send_loop_rateLimit_step cfg model env dur (k + 1) a e c s (henv a),
      if_neg ha, hrt]
    have h1 : c + 1 + (k + 1) = c + (k + 1 + 1) := by omega
    have h2 : (s ++ [2]) ++ List.replicate k 2 = s ++ List.replicate (k + 1) 2 := by
      simp [List.replicate_succ]
    rw [h1, h2]

/-- C1: with a valid message and the API rate-limiting every attempt,
`send_message` issues exactly `MAX_RETRIES` network calls, sleeps 2 seconds
after each attempt but the last, and fails with the rate-limit message. -/
theorem claim1_rate_limit_exhausts_retries (cfg : Config)
    (message model : String) (env : Nat → APIOutcome) (dur : Nat → Nat)
    (hr : 1 ≤ cfg.maxRetries) (h2 : pyStrip message ≠ "")
    (h3 : message.length ≤ cfg.maxMessageLength)
    (henv : ∀ i, env i = APIOutcome.rateLimit) :
    ∃ rt, send_message cfg message model env dur =
      some ({ success := false, response := none,
              error := some "Rate limit exceeded. Please try again later.",
              response_time := rt, model_used := none, tokens_used := none },
            { calls := cfg.maxRetries,
              sleeps := List.replicate (cfg.maxRetries - 1) 2 }) := by
  rw [send_message_valid cfg message model env dur h2 h3]
  obtain ⟨m, hm⟩ : ∃ m, cfg.maxRetries = m + 1 := ⟨cfg.maxRetries - 1, by omega⟩
  obtain ⟨rt, hrt⟩ := send_loop_rate_limit cfg model env dur henv m 0 0 0 [] (by omega)
  refine ⟨rt, ?_⟩
  rw [hm, hrt]
  simp

theorem claim1_witness :
    ∃ rt, send_message ⟨"k", 100, 3, 30⟩ "hi" "gpt-3.5-turbo"
        (fun _ => APIOutcome.rateLimit) (fun _ => 5) =
      some ({ success := false, response := none,
              error := some "Rate limit exceeded. Please try again later.",
              response_time := rt, model_used := none, tokens_used := none },
            { calls := (Config.mk "k" 100 3 30).maxRetries,
              sleeps := List.replicate ((Config.mk "k" 100 3 30).maxRetries - 1) 2 }) :=
  claim1_rate_limit_exhausts_retries ⟨"k", 100, 3, 30⟩ "hi" "gpt-3.5-turbo"
    (fun _ => APIOutcome.rateLimit) (fun _ => 5)
    (by decide) (by decide) (by decide) (fun i => rfl)

/-- Skipping `k` retryable attempts: if the first `k` outcomes after `a` are
retryable and at least one attempt remains after them, the loop reaches
attempt `a + k` having issued `k` more calls. -/
lemma send_loop_skip (cfg : Config) (model : String) (env : Nat → APIOutcome)
    (dur : Nat → Nat) :
    ∀ (k m a e c : Nat) (s : List Nat),
      (∀ j, j < k → retryable (env (a + j)) = true) →
      a + k + m = cfg.maxRetries → 1 ≤ m →
      ∃ e2 s2, send_loop cfg model env dur (k + m) a e c s =
        send_loop cfg model env dur m (a + k) e2 (c + k) s2 := by
  intro k
  induction k with
  | zero =>
    intro m a e c s hret hinv hm
    exact ⟨e, s, by simp⟩
  | succ k ih =>
    intro m a e c s hret hinv hm
    have hfuel : k + 1 + m = (k + m) + 1 := by omega
    have ha : ¬(a = cfg.maxRetries - 1) := by omega
    have hret0 : retryable (env a) = true := by
      have := hret 0 (by omega)
      simpa using this
    have hrest : ∀ j, j < k → retryable (env (a + 1 + j)) = true := by
      intro j hj
      have := hret (j + 1) (by omega)
      have harith : a + (j + 1) = a + 1 + j := by omega
      rwa [harith] at this
    rcases ho : env a with resp | msg | _ | _ | msg
    · rw [ho] at hret0; simp [retryable] at hret0
    · obtain ⟨e2, s2, heq⟩ := ih m (a + 1) (e + dur a + 1) (c + 1) (s ++ [1])
        hrest (by omega) hm
      refine ⟨e2, s2, ?_⟩
      rw [hfuel, send_loop_apiError_step cfg model env dur (k + m) a e c s msg ho,
        if_neg ha, heq]
      have h1 : a + 1 + k = a + (k + 1) := by omega
      have h2 : c + 1 + k = c + (k + 1) := by omega
      rw [h1, h2]
    · obtain ⟨e2, s2, heq⟩ := ih m (a + 1) (e + dur a + 2) (c + 1) (s ++ [2])
        hrest (by omega) hm
      refine ⟨e2, s2, ?_⟩
      rw [hfuel, send_loop_rateLimit_step cfg model env dur (k + m) a e c s ho,
        if_neg ha, heq]
      have h1 : a + 1 + k = a + (k + 1) := by omega
      have h2 : c + 1 + k = c + (k + 1) := by omega
      rw [h1, h2]
    · rw [ho] at hret0; simp [retryable] at hret0
    · obtain ⟨e2, s2, heq⟩ := ih m (a + 1) (e + dur a + 1) (c + 1) (s ++ [1])
        hrest (by omega) hm
      refine ⟨e2, s2, ?_⟩
      rw [hfuel, send_loop_otherError_step cfg model env dur (k + m) a e c s msg ho,
        if_neg ha, heq]
      have h1 : a + 1 + k = a + (k + 1) := by omega
      have h2 : c + 1 + k = c + (k + 1) := by omega
      rw [h1, h2]

/-- C5: if attempt `i` is reached (all earlier outcomes retryable) and yields
a response without content, `send_message` fails with "Empty response from
API" right there, after `i + 1` calls, even when attempts remain. -/
theorem claim5_empty_response_terminal (cfg : Config) (message model : String)
    (env : Nat → APIOutcome) (dur : Nat → Nat) (i : Nat) (resp : APIResponse)
    (h2 : pyStrip message ≠ "") (h3 : message.length ≤ cfg.maxMessageLength)
    (hi : i < cfg.maxRetries)
    (hprev : ∀ j, j < i → retryable (env j) = true)
    (henv : env i = APIOutcome.success resp)
    (hempty : hasContent resp = false) :
    ∃ rt sl, send_message cfg message model env dur =
      some ({ success := false, response := none,
              error := some "Empty response from API",
              response_time := rt, model_used := none, tokens_used := none },
            { calls := i + 1, sleeps := sl }) := by
  rw [send_message_valid cfg message model env dur h2 h3]
  obtain ⟨e2, s2, heq⟩ := send_loop_skip cfg model env dur i (cfg.maxRetries - i)
    0 0 0 []
    (fun j hj => by rw [Nat.zero_add]; exact hprev j hj)
    (by omega) (by omega)
  have hsplit : cfg.maxRetries = i + (cfg.maxRetries - i) := by omega
  rw [hsplit, heq]
  obtain ⟨m, hm⟩ : ∃ m, cfg.maxRetries - i = m + 1 := ⟨cfg.maxRetries - i - 1, by omega⟩
  rw [hm, Nat.zero_add]
  rcases hch : resp.choices with _ | ⟨ch, rest⟩
  · exact ⟨e2 + dur i, s2, by simp [send_loop, henv, hch]⟩
  · have hmsg : ch.message = none := by
      unfold hasContent at hempty
      rw [hch] at hempty
      simpa using hempty
    exact ⟨e2 + dur i, s2, by simp [send_loop, henv, hch, hmsg]⟩

theorem claim5_witness :
    ∃ rt sl, send_message ⟨"k", 100, 5, 30⟩ "hi" "m"
        (fun a => if a < 2 then APIOutcome.rateLimit
                  else APIOutcome.success ⟨[], none⟩) (fun _ => 5) =
      some ({ success := false, response := none,
              error := some "Empty response from API",
              response_time := rt, model_used := none, tokens_used := none },
            { calls := 2 + 1, sleeps := sl }) :=
  claim5_empty_response_terminal ⟨"k", 100, 5, 30⟩ "hi" "m"
    (fun a => if a < 2 then APIOutcome.rateLimit
              else APIOutcome.success ⟨[], none⟩) (fun _ => 5) 2 ⟨[], none⟩
    (by decide) (by decide) (by decide)
    (fun j hj => by interval_cases j <;> decide) rfl rfl

/-- Every result the retry loop produces satisfies the record invariant. -/
lemma send_loop_invariant (cfg : Config) (model : String)
    (env : Nat → APIOutcome) (dur : Nat → Nat) :
    ∀ (n a e c : Nat) (s : List Nat) (r : DispatchResult) (t : Trace),
      send_loop cfg model env dur n a e c s = some (r, t) → resultInvariant r := by
  intro n
  induction n with
  | zero =>
    intro a e c s r t h
    simp [send_loop] at h
  | succ k ih =>
    intro a e c s r t h
    rcases ho : env a with resp | msg | _ | _ | msg
    · rcases hch : resp.choices with _ | ⟨ch, rest⟩
      · simp only [send_loop, ho, hch, Option.some.injEq, Prod.mk.injEq] at h
        obtain ⟨rfl, rfl⟩ := h
        simp [resultInvariant]
      · rcases hmsg : ch.message with _ | m
        · simp only [send_loop, ho, hch, hmsg, Option.some.injEq, Prod.mk.injEq] at h
          obtain ⟨rfl, rfl⟩ := h
          simp [resultInvariant]
        · simp only [send_loop, ho, hch, hmsg, Option.some.injEq, Prod.mk.injEq] at h
          obtain ⟨rfl, rfl⟩ := h
          simp [resultInvariant]
    · rw [send_loop_apiError_step cfg model env dur k a e c s msg ho] at h
      split at h
      · simp only [Option.some.injEq, Prod.mk.injEq] at h
        obtain ⟨rfl, rfl⟩ := h
        simp [resultInvariant]
      · exact ih _ _ _ _ _ _ h
    · rw [send_loop_rateLimit_step cfg model env dur k a e c s ho] at h
      split at h
      · simp only [Option.some.injEq, Prod.mk.injEq] at h
        obtain ⟨rfl, rfl⟩ := h
        simp [resultInvariant]
      · exact ih _ _ _ _ _ _ h
    · simp only [send_loop, ho, Option.some.injEq, Prod.mk.injEq] at h
      obtain ⟨rfl, rfl⟩ := h
      simp [resultInvariant]
    · rw [send_loop_otherError_step cfg model env dur k a e c s msg ho] at h
      split at h
      · simp only [Option.some.injEq, Prod.mk.injEq] at h
        obtain ⟨rfl, rfl⟩ := h
        simp [resultInvariant]
      · exact ih _ _ _ _ _ _ h

/-- C6: every `DispatchResult` that `send_message` returns — any message, any
environment — has exactly one of `response`/`error` populated according to
`success`, `model_used` populated exactly on success, and non-negative
elapsed time. -/
theorem claim6_result_invariant (cfg : Config) (message model : String)
    (env : Nat → APIOutcome) (dur : Nat → Nat) (r : DispatchResult) (t : Trace)
    (h : send_message cfg message model env dur = some (r, t)) :
    resultInvariant r := by
  unfold send_message at h
  split at h
  · simp only [Option.some.injEq, Prod.mk.injEq] at h
    obtain ⟨rfl, rfl⟩ := h
    simp [resultInvariant]
  · split at h
    · simp only [Option.some.injEq, Prod.mk.injEq] at h
      obtain ⟨rfl, rfl⟩ := h
      simp [resultInvariant]
    · exact send_loop_invariant cfg model env dur _ _ _ _ _ r t h

theorem claim6_witness :
    resultInvariant
      { success := false, response := none,
        error := some "Invalid API key. Please check your configuration.",
        response_time := 0, model_used := none, tokens_used := none } :=
  claim6_result_invariant ⟨"k", 10, 1, 30⟩ "hi" "m"
    (fun _ => APIOutcome.authError) (fun _ => 0)
    { success := false, response := none,
      error := some "Invalid API key. Please check your configuration.",
      response_time := 0, model_used := none, tokens_used := none }
    { calls := 1, sleeps := [] } (by decide)

/-- With at least one iteration left and the range invariant, the loop always
returns a result (never falls through to the implicit `None`). -/
lemma send_loop_total (cfg : Config) (model : String) (env : Nat → APIOutcome)
    (dur : Nat → Nat) :
    ∀ (n a e c : Nat) (s : List Nat), 1 ≤ n → a + n = cfg.maxRetries →
      (send_loop cfg model env dur n a e c s).isSome = true := by
  intro n
  induction n with
  | zero =>
    intro a e c s h1 _
    omega
  | succ k ih =>
    intro a e c s h1 h2
    rcases ho : env a with resp | msg | _ | _ | msg
    · rcases hch : resp.choices with _ | ⟨ch, rest⟩
      · simp [send_loop, ho, hch]
      · rcases hmsg : ch.message with _ | m <;> simp [send_loop, ho, hch, hmsg]
    · rw [send_loop_apiError_step cfg model env dur k a e c s msg ho]
      by_cases hl : a = cfg.maxRetries - 1
      · rw [if_pos hl]
        rfl
      · rw [if_neg hl]
        exact ih (a + 1) _ _ _ (by omega) (by omega)
    · rw [send_loop_rateLimit_step cfg model env dur k a e c s ho]
      by_cases hl : a = cfg.maxRetries - 1
      · rw [if_pos hl]
        rfl
      · rw [if_neg hl]
        exact ih (a + 1) _ _ _ (by omega) (by omega)
    · simp [send_loop, ho]
    · rw [send_loop_otherError_step cfg model env dur k a e c s msg ho]
      by_cases hl : a = cfg.maxRetries - 1
      · rw [if_pos hl]
        rfl
      · rw [if_neg hl]
        exact ih (a + 1) _ _ _ (by omega) (by omega)

/-- C7: for every configuration satisfying the validation invariant,
`send_message` always terminates with a structured result, whatever the
message and the sequence of remote outcomes — no exception escapes and no
fall-through happens; and construction succeeds exactly when validation
passes (it raises on validation failure, the only raising path). -/
theorem claim7_structured_total :
    (∀ (cfg : Config) (message model : String) (env : Nat → APIOutcome)
        (dur : Nat → Nat), configValid cfg = true →
      (send_message cfg message model env dur).isSome = true) ∧
    (∀ cfg : Config,
      (llmServiceInit cfg = Except.ok cfg ↔ configValid cfg = true) ∧
      (configValid cfg = false →
        llmServiceInit cfg = Except.error "Missing required configuration")) := by
  constructor
  · intro cfg message model env dur hv
    have hr : 1 ≤ cfg.maxRetries := by
      simp only [configValid, Bool.and_eq_true, decide_eq_true_eq] at hv
      omega
    unfold send_message
    split
    · rfl
    · split
      · rfl
      · exact send_loop_total cfg model env dur cfg.maxRetries 0 0 0 [] hr
          (Nat.zero_add _)
  · intro cfg
    constructor
    · unfold llmServiceInit
      split
      · simp_all
      · simp_all
    · intro hv
      unfold llmServiceInit
      rw [if_neg]
      simp [hv]

theorem claim7_witness :
    (send_message ⟨"k", 10, 2, 30⟩ "hi" "m"
        (fun _ => APIOutcome.rateLimit) (fun _ => 1)).isSome = true ∧
    llmServiceInit ⟨"", 10, 2, 30⟩ = Except.error "Missing required configuration" :=
  ⟨claim7_structured_total.1 ⟨"k", 10, 2, 30⟩ "hi" "m"
      (fun _ => APIOutcome.rateLimit) (fun _ => 1) (by decide),
   (claim7_structured_total.2 ⟨"", 10, 2, 30⟩).2 (by decide)⟩

lemma mk_data (s : String) : String.mk s.data = s := rfl

lemma mem_pyStrip {s : String} {c : Char} (h : c ∈ (pyStrip s).data) :
    c ∈ s.data := by
  have h1 : c ∈ ((s.data.dropWhile isPySpace).reverse.dropWhile isPySpace).reverse := h
  rw [List.mem_reverse] at h1
  have h2 := List.dropWhile_subset isPySpace h1
  rw [List.mem_reverse] at h2
  exact List.dropWhile_subset isPySpace h2

lemma remove_dangerous_mem {s : String} {c : Char}
    (h : c ∈ (remove_dangerous s).data) : dangerous c = false := by
  have h1 : c ∈ s.data.filter (fun c => !dangerous c) := h
  have h2 := (List.mem_filter.mp h1).2
  simpa using h2

/-- C8: sanitization output never contains `<`, `>`, `"` or the apostrophe;
in particular it does not on the script-tag example. -/
theorem claim8_sanitize_strips_dangerous :
    (∀ s : String, (sanitize_input s).data.all (fun c => !dangerous c) = true) ∧
    (sanitize_input ("<script>alert(" ++ String.singleton squote ++ "x" ++
        String.singleton squote ++ ")</script>")).data.all
      (fun c => !dangerous c) = true := by
  have key : ∀ s : String, (sanitize_input s).data.all (fun c => !dangerous c) = true := by
    intro s
    rw [List.all_eq_true]
    intro c hc
    by_cases hs : s = ""
    · unfold sanitize_input at hc
      rw [if_pos hs] at hc
      simp at hc
    · unfold sanitize_input at hc
      rw [if_neg hs] at hc
      have h2 : c ∈ (truncate4000 (remove_dangerous (html_escape s))).data :=
        mem_pyStrip hc
      unfold truncate4000 at h2
      split at h2
      · rw [String.data_append] at h2
        rcases List.mem_append.mp h2 with h3 | h3
        · have h4 : c ∈ (remove_dangerous (html_escape s)).data :=
            List.mem_of_mem_take h3
          simp [remove_dangerous_mem h4]
        · have hdot : c = '.' := by simpa using h3
          rw [hdot]
          decide
      · simp [remove_dangerous_mem h2]
  exact ⟨key, key _⟩

lemma escapeChar_of_not_escapable {c : Char} (h : escapable c = false) :
    escapeChar c = String.singleton c := by
  simp only [escapable, Bool.or_eq_false_iff, decide_eq_false_iff_not] at h
  obtain ⟨⟨⟨⟨h1, h2⟩, h3⟩, h4⟩, h5⟩ := h
  unfold escapeChar
  rw [if_neg h1, if_neg h2, if_neg h3, if_neg h4, if_neg h5]

lemma dangerous_false_of_escapable_false {c : Char} (h : escapable c = false) :
    dangerous c = false := by
  simp only [escapable, Bool.or_eq_false_iff, decide_eq_false_iff_not] at h
  obtain ⟨⟨⟨⟨h1, h2⟩, h3⟩, h4⟩, h5⟩ := h
  simp only [dangerous, Bool.or_eq_false_iff, decide_eq_false_iff_not]
  exact ⟨⟨⟨h2, h3⟩, h4⟩, h5⟩

lemma escapeList_id : ∀ l : List Char, (∀ c ∈ l, escapable c = false) →
    escapeList l = l := by
  intro l
  induction l with
  | nil => intro _; rfl
  | cons c cs ih =>
    intro h
    show (escapeChar c).data ++ escapeList cs = c :: cs
    rw [escapeChar_of_not_escapable (h c (by simp)),
      ih (fun x hx => h x (by simp [hx]))]
    rfl

lemma dropWhile_append_keep (p : Char → Bool) (l2 : List Char)
    (h : l2.dropWhile p = l2) :
    ∀ l : List Char, (l ++ l2).dropWhile p = l.dropWhile p ++ l2 := by
  intro l
  induction l with
  | nil => simpa using h
  | cons c cs ih =>
    by_cases hc : p c
    · simp [List.dropWhile_cons, hc, ih]
    · simp [List.dropWhile_cons, hc]

lemma pyStrip_data_dots (l : List Char) :
    (pyStrip (String.mk (l ++ ('.' :: '.' :: '.' :: [])))).data =
      l.dropWhile isPySpace ++ ('.' :: '.' :: '.' :: []) := by
  show (((l ++ ('.' :: '.' :: '.' :: [])).dropWhile
      isPySpace).reverse.dropWhile isPySpace).reverse = _
  rw [dropWhile_append_keep isPySpace ('.' :: '.' :: '.' :: []) (by decide) l]
  rw [List.reverse_append]
  show (List.dropWhile isPySpace
      ('.' :: '.' :: '.' :: (l.dropWhile isPySpace).reverse)).reverse = _
  rw [show List.dropWhile isPySpace
      ('.' :: '.' :: '.' :: (l.dropWhile isPySpace).reverse) =
      '.' :: '.' :: '.' :: (l.dropWhile isPySpace).reverse by
    rw [List.dropWhile_cons, if_neg (by decide)]]
  simp

/-- C9: on a 5000-character input containing no character that HTML-escaping
alters, sanitization truncates: the output has length at most 4003 and ends
with the "..." marker. -/
theorem claim9_truncation (s : String) (hlen : s.length = 5000)
    (hplain : s.data.all (fun c => !escapable c) = true) :
    (sanitize_input s).length ≤ 4003 ∧
    ("...".data).IsSuffix (sanitize_input s).data := by
  have hplain2 : ∀ c ∈ s.data, escapable c = false := by
    rw [List.all_eq_true] at hplain
    intro c hc
    simpa using hplain c hc
  have hs : s ≠ "" := by
    intro h
    rw [h] at hlen
    simp at hlen
  have hlen2 : s.data.length = 5000 := hlen
  have hesc : html_escape s = s := by
    unfold html_escape
    rw [escapeList_id s.data hplain2, mk_data]
  have hrem : remove_dangerous s = s := by
    unfold remove_dangerous
    rw [List.filter_eq_self.mpr, mk_data]
    intro a ha
    simp [dangerous_false_of_escapable_false (hplain2 a ha)]
  have hsan : sanitize_input s = pyStrip (truncate4000 s) := by
    unfold sanitize_input
    rw [if_neg hs, hesc, hrem]
  have htr : truncate4000 s = String.mk (s.data.take 4000 ++ ('.' :: '.' :: '.' :: [])) := by
    unfold truncate4000
    rw [if_pos (by omega)]
    rfl
  rw [hsan, htr]
  have hdata := pyStrip_data_dots (s.data.take 4000)
  constructor
  · show (pyStrip _).data.length ≤ 4003
    rw [hdata, List.length_append]
    have h1 : ((s.data.take 4000).dropWhile isPySpace).length ≤
        (s.data.take 4000).length := (List.dropWhile_sublist isPySpace).length_le
    have h2 : (s.data.take 4000).length = 4000 := by
      rw [List.length_take]
      omega
    simp only [List.length_cons, List.length_nil]
    omega
  · rw [hdata]
    exact ⟨(s.data.take 4000).dropWhile isPySpace, rfl⟩

theorem claim9_witness :
    (sanitize_input (String.mk (List.replicate 5000 'a'))).length ≤ 4003 ∧
    ("...".data).IsSuffix
      (sanitize_input (String.mk (List.replicate 5000 'a'))).data :=
  claim9_truncation (String.mk (List.replicate 5000 'a'))
    (by show (List.replicate 5000 'a').length = 5000
        rw [List.length_replicate])
    (by show (List.replicate 5000 'a').all (fun c => !escapable c) = true
        rw [List.all_eq_true]
        intro x hx
        rw [List.eq_of_mem_replicate hx]
        decide)
